import Mathlib

/-!
A verification development for the AI Video Studio single-page
application (src/src_App.tsx).  The data model, the render flow, the
scene-generation loop, the editing handlers and the preview sequencer
are embedded as executable Lean functions, and the behavioural claims
about them are proved or refuted below.  Components of the repository
that live outside src_App.tsx (the scene store and the aiServices /
videoRenderer service modules) are modelled from the specification
where noted.  Durations and narration times are whole seconds,
modelled as naturals.
-/

/-- Project lifecycle status: the status field of a project
(spec section 3), written at src_App.tsx lines 191, 201 and 209. -/
inductive ProjStatus where
  | draft
  | ready
  | rendering
  | complete
deriving DecidableEq, Repr

/-- One scene (VideoScene in the scene store, as constructed at
src_App.tsx lines 141-147, 152-158 and 615-621).  The id models
crypto.randomUUID as an opaque natural number. -/
structure VideoScene where
  id : Nat
  text : String
  imageUrl : Option String
  duration : Nat
  voiceAudio : Option String
deriving DecidableEq, Repr

/-- One parsed script segment, the output of parseScriptToScenes
consumed at src_App.tsx lines 124, 137 and 143-145. -/
structure ParsedScene where
  text : String
  duration : Nat
deriving DecidableEq, Repr

/-- A project (spec section 3), with the fields used throughout
src_App.tsx. -/
structure Project where
  id : Nat
  title : String
  script : Option String
  style : String
  scenes : List VideoScene
  voiceType : String
  musicTrack : Option String
  videoUrl : Option String
  status : ProjStatus
deriving DecidableEq, Repr

/-- Modelled from the spec: the Scene Store addScene operation
(src/store/videoStore.ts is not under src/).  Spec sections 2-3: the
store is pure CRUD and scenes retain creation order, which is the sole
ordering signal, so adding a scene appends it to the ordered list. -/
def addScene (p : Project) (s : VideoScene) : Project :=
  { p with scenes := p.scenes ++ [s] }

/-- Modelled from the spec: the Scene Store updateScene operation
(src/store/videoStore.ts is not under src/).  Spec section 3: scenes
are mutated in place, so the scene with the given id is replaced by
its updated value and every other scene is untouched. -/
def updateScene (p : Project) (sceneId : Nat) (f : VideoScene → VideoScene) : Project :=
  { p with scenes := p.scenes.map fun s => if s.id = sceneId then f s else s }

/-- First step of handleRenderVideo after its empty guard
(src_App.tsx line 191): updateProject with status rendering, before any
rendering work begins. -/
def renderStart (p : Project) : Project :=
  { p with status := .rendering }

/-- Completion of handleRenderVideo (src_App.tsx lines 193-211).  The
awaited renderVideo call (src/services/videoRenderer.ts, not under
src/) is modelled by its outcome: some url when it resolved, none when
it threw.  On success the artifact is stored and status becomes
complete (line 201); on failure status is set back to ready and
videoUrl is left untouched (line 209). -/
def renderFinish (p : Project) (result : Option String) : Project :=
  match result with
  | some url => { p with videoUrl := some url, status := .complete }
  | none => { p with status := .ready }

/-- handleRenderVideo (src_App.tsx lines 187-212): return unchanged when
the scene list is empty (line 188, before anything else runs),
otherwise mark the project rendering and run the render to its
outcome. -/
def handleRenderVideo (p : Project) (result : Option String) : Project :=
  if p.scenes.isEmpty then p
  else renderFinish (renderStart p) result

/-- handleDownload (src_App.tsx lines 214-223): no download happens
without a rendered artifact (line 215); otherwise the suggested
filename is the project title followed by .webm, where the JavaScript
expression title or-else video falls back exactly when the title is
the empty string (line 219). -/
def downloadFilename (p : Project) : Option String :=
  if p.videoUrl = none then none
  else some ((if p.title = "" then "video" else p.title) ++ ".webm")

/-- The scene built for segment number newId of the generation loop
(src_App.tsx lines 135-160): the try branch stores the generated image
url (lines 141-147), the catch branch stores null (lines 152-158);
text, duration and voiceAudio are identical in both branches. -/
def generatedScene (newId : Nat) (ps : ParsedScene) (img : Option String) : VideoScene :=
  match img with
  | some url =>
      { id := newId, text := ps.text, imageUrl := some url,
        duration := ps.duration, voiceAudio := none }
  | none =>
      { id := newId, text := ps.text, imageUrl := none,
        duration := ps.duration, voiceAudio := none }

/-- The for loop of handleGenerateScenes (src_App.tsx lines 129-161):
segment i yields exactly one addScene call whether or not the awaited
generateImage call succeeded.  ids supplies the fresh id of each
iteration (crypto.randomUUID) and img the outcome of generateImage for
segment i (some url, or none when it threw). -/
def genLoop (ids : Nat → Nat) (img : Nat → Option String) :
    Nat → List ParsedScene → Project → Project
  | _, [], q => q
  | i, ps :: rest, q =>
      genLoop ids img (i + 1) rest (addScene q (generatedScene (ids i) ps (img i)))

/-- The list of scenes produced by the generation loop from index i
onward: one scene per remaining parsed segment, in order. -/
def buildScenes (ids : Nat → Nat) (img : Nat → Option String) :
    Nat → List ParsedScene → List VideoScene
  | _, [] => []
  | i, ps :: rest =>
      generatedScene (ids i) ps (img i) :: buildScenes ids img (i + 1) rest

/-- handleGenerateScenes (src_App.tsx lines 120-168): clear the existing
scenes (line 127), then run the generation loop over the parsed
segments from index 0 (lines 129-161). -/
def handleGenerateScenes (p : Project) (parsed : List ParsedScene)
    (ids : Nat → Nat) (img : Nat → Option String) : Project :=
  genLoop ids img 0 parsed { p with scenes := [] }

/-- Total authored duration of a project, as displayed in the video
summary (src_App.tsx line 776): scenes.reduce of acc + s.duration
starting from 0. -/
def totalDuration (p : Project) : Nat :=
  p.scenes.foldl (fun acc s => acc + s.duration) 0

/-- The duration input's onChange handler (src_App.tsx lines 576-587):
it stores Number of the entered value via updateScene with no
clamping.  The min and max attributes on the input element (lines
584-585) do not restrict typed values. -/
def durationInputChange (p : Project) (sceneId : Nat) (entered : Nat) : Project :=
  updateScene p sceneId fun s => { s with duration := entered }

/-- The scene created by the Add Scene button
(src_App.tsx lines 615-621). -/
def defaultNewScene (newId : Nat) : VideoScene :=
  { id := newId, text := "New scene text...", imageUrl := none,
    duration := 5, voiceAudio := none }

/-- The Add Scene button's onClick handler
(src_App.tsx lines 612-623). -/
def addSceneButton (p : Project) (newId : Nat) : Project :=
  addScene p (defaultNewScene newId)

/-- Outcome of one full, uncancelled preview traversal: the scene
indices that become current, in chronological order, together with the
isPlaying and currentSceneIndex values left behind by the terminal
step.  The sequencer owns a single current index, so exactly one scene
is current at any instant of the traversal. -/
structure SeqOutcome where
  visits : List Nat
  playingAfter : Bool
  idxAfter : Nat
deriving DecidableEq, Repr

/-- The recursive playScene of handlePlayPreview
(src_App.tsx lines 240-259) run to completion without cancellation,
modelled structurally over the list of scenes not yet visited, with k
the current value of the index.  When the index passes the end of the
list the code sets isPlaying to false and currentSceneIndex to 0 and
stops (lines 241-245); otherwise scene k becomes current (line 247)
and after its dwell the recursion continues at k + 1
(lines 254-256). -/
def playRunAux : Nat → List VideoScene → SeqOutcome
  | _, [] => { visits := [], playingAfter := false, idxAfter := 0 }
  | k, _ :: rest =>
      let r := playRunAux (k + 1) rest
      { r with visits := k :: r.visits }

/-- A full preview traversal started by playScene at index 0
(src_App.tsx line 259). -/
def playSceneRun (scenes : List VideoScene) : SeqOutcome :=
  playRunAux 0 scenes

/-- Dwell times of the same recursion (src_App.tsx lines 247-256):
scene k becomes current at setCurrentSceneIndex, then the code awaits
speakText (nar k seconds of narration; speakText from
src/services/videoRenderer.ts is modelled from the spec as resolving
when narration completes) and only then starts a timeout of
durations-at-k seconds before playScene of k + 1 runs, so scene k
stays current for nar k + durations-at-k seconds.  Produces the list
of pairs of scene index and dwell seconds. -/
def playTimedAux (nar : Nat → Nat) : Nat → List Nat → List (Nat × Nat)
  | _, [] => []
  | k, d :: rest => (k, nar k + d) :: playTimedAux nar (k + 1) rest

/-- The timed preview traversal from index 0 over the authored
durations of a scene list. -/
def playTimed (durations : List Nat) (nar : Nat → Nat) : List (Nat × Nat) :=
  playTimedAux nar 0 durations

/-- Narration oracle for the spec scenario of claim C1: scene index 1
(the second scene) takes 8 seconds to speak, the others finish
instantly. -/
def narScenario (k : Nat) : Nat := if k = 1 then 8 else 0

/-- Interactive preview state (src_App.tsx lines 73-76 and 225-259):
n is the scene count captured by the handler, playing is isPlaying,
idx is currentSceneIndex, awaiting records a playScene call suspended
on await speakText for a scene index, pendingNext records a scheduled
setTimeout that will run playScene at that index, and speaking is
whether an utterance is audibly in flight. -/
structure PrevState where
  n : Nat
  playing : Bool
  idx : Nat
  awaiting : Option Nat
  pendingNext : Option Nat
  speaking : Bool
deriving DecidableEq, Repr

/-- Events that drive the preview: a click on the preview toggle button
(handlePlayPreview), the resolution of an awaited speakText call, and
the firing of a scheduled setTimeout. -/
inductive PrevEvent where
  | toggleClick
  | narrationDone
  | timerFire
deriving DecidableEq, Repr

/-- The body of playScene at index k up to its first suspension
(src_App.tsx lines 240-252): past the end of the list it sets
isPlaying to false and currentSceneIndex to 0 and returns
(lines 241-245); otherwise scene k becomes current (line 247) and the
call suspends awaiting speakText, with the utterance audibly in
flight (line 251). -/
def beginScene (k : Nat) (s : PrevState) : PrevState :=
  if s.n ≤ k then { s with playing := false, idx := 0 }
  else { s with idx := k, awaiting := some k, speaking := true }

/-- One preview event step (src_App.tsx lines 225-259).
toggleClick: the guard at line 226 returns when there are no scenes;
while playing, lines 228-235 set isPlaying to false and
speechSynthesis.cancel silences the utterance, but the clearInterval
call at line 232 clears nothing because previewIntervalRef is never
assigned anywhere and the chain is driven by setTimeout whose handle
is never stored, so pendingNext survives the cancellation and
currentSceneIndex is not touched; while idle, lines 237-259 set
isPlaying to true, reset the index to 0 and start playScene at 0.
narrationDone: the awaited speakText resolves (modelled from the spec,
which also has cancel resolve any pending completion), and line 254
schedules the timeout that will run playScene at the next index.
timerFire: the timeout of lines 254-256 fires and runs playScene at
the recorded index, whether or not the preview was cancelled in the
meantime, because playScene never rechecks isPlaying. -/
def prevStep (s : PrevState) : PrevEvent → PrevState
  | .toggleClick =>
      if s.n = 0 then s
      else if s.playing then { s with playing := false, speaking := false }
      else beginScene 0 { s with playing := true, idx := 0 }
  | .narrationDone =>
      match s.awaiting with
      | some k => { s with awaiting := none, speaking := false, pendingNext := some (k + 1) }
      | none => s
  | .timerFire =>
      match s.pendingNext with
      | some k => beginScene k { s with pendingNext := none }
      | none => s

/-- The idle preview state over n scenes. -/
def initPrev (n : Nat) : PrevState :=
  { n := n, playing := false, idx := 0, awaiting := none,
    pendingNext := none, speaking := false }

/-- The preview state reached by: start a 3-scene preview, scene 0's
narration finishes, the timer advances to scene 1, scene 1's narration
finishes, and then the user clicks the toggle to cancel. -/
def cancelTrace : PrevState :=
  List.foldl prevStep (initPrev 3)
    [PrevEvent.toggleClick, PrevEvent.narrationDone, PrevEvent.timerFire,
     PrevEvent.narrationDone, PrevEvent.toggleClick]

/-- A completed project with one scene, as left behind by a successful
render; used to exercise re-rendering. -/
def projC3 : Project :=
  { id := 1, title := "Demo", script := none, style := "cinematic",
    scenes := [⟨0, "hello", some "img0", 5, none⟩],
    voiceType := "female", musicTrack := none,
    videoUrl := some "blob-old", status := .complete }

/-- A ready project with no scenes. -/
def projC5 : Project :=
  { id := 2, title := "Empty", script := none, style := "anime",
    scenes := [], voiceType := "male", musicTrack := none,
    videoUrl := none, status := .ready }

/-- A project holding previously edited scenes, about to be
regenerated. -/
def projC6 : Project :=
  { id := 3, title := "Regen", script := some "s", style := "cartoon",
    scenes := [⟨9, "old scene", some "imgOld", 7, none⟩],
    voiceType := "neutral", musicTrack := none,
    videoUrl := none, status := .draft }

/-- Parsed segments for the regeneration example: generation of the
image of segment 1 will fail. -/
def parsedC6 : List ParsedScene :=
  [⟨"hello", 4⟩, ⟨"world", 6⟩]

/-- Image outcomes for the regeneration example: segment 1 fails. -/
def imgC6 (i : Nat) : Option String :=
  if i = 1 then none else some "imgNew"

/-- A project with one editable scene. -/
def projC8 : Project :=
  { id := 4, title := "Edit", script := none, style := "scifi",
    scenes := [⟨7, "some text", none, 5, none⟩],
    voiceType := "male", musicTrack := none,
    videoUrl := none, status := .ready }

/-- A rendered project with a non-empty title. -/
def projC9 : Project :=
  { id := 5, title := "My Movie", script := none, style := "fantasy",
    scenes := [⟨0, "a", none, 5, none⟩],
    voiceType := "female", musicTrack := some "upbeat",
    videoUrl := some "blob-a", status := .complete }

/-- A rendered project with an empty title. -/
def projC9b : Project :=
  { id := 6, title := "", script := none, style := "fantasy",
    scenes := [⟨0, "a", none, 5, none⟩],
    voiceType := "female", musicTrack := none,
    videoUrl := some "blob-b", status := .complete }

/-- Three scenes for the traversal example. -/
def scenesC4 : List VideoScene :=
  [⟨0, "a", none, 5, none⟩, ⟨1, "b", none, 5, none⟩, ⟨2, "c", none, 5, none⟩]

/-- Parsed segments for the full-regeneration example. -/
def parsedC10 : List ParsedScene :=
  [⟨"first", 3⟩, ⟨"second", 8⟩]

/-- Image outcomes for the full-regeneration example: segment 0 fails,
segment 1 succeeds. -/
def imgC10 (i : Nat) : Option String :=
  if i = 0 then none else some "pic"

/-- A project with manually added scenes that regeneration will
discard. -/
def projC10 : Project :=
  { id := 7, title := "Discard", script := some "s", style := "anime",
    scenes := [⟨4, "manual", none, 11, none⟩, ⟨5, "edited", some "m", 2, none⟩],
    voiceType := "male", musicTrack := none,
    videoUrl := none, status := .draft }

theorem genLoop_eq (ids : Nat → Nat) (img : Nat → Option String) :
    ∀ (l : List ParsedScene) (i : Nat) (q : Project),
      genLoop ids img i l q = { q with scenes := q.scenes ++ buildScenes ids img i l } := by
  intro l
  induction l with
  | nil => intro i q; simp [genLoop, buildScenes]
  | cons ps rest ih =>
      intro i q
      simp [genLoop, buildScenes, ih, addScene, List.append_assoc]

theorem handleGenerateScenes_scenes (p : Project) (parsed : List ParsedScene)
    (ids : Nat → Nat) (img : Nat → Option String) :
    (handleGenerateScenes p parsed ids img).scenes = buildScenes ids img 0 parsed := by
  rw [handleGenerateScenes, genLoop_eq]
  simp

theorem get?_buildScenes (ids : Nat → Nat) (img : Nat → Option String) :
    ∀ (l : List ParsedScene) (i j : Nat),
      (buildScenes ids img i l).get? j
        = (l.get? j).map fun ps => generatedScene (ids (i + j)) ps (img (i + j)) := by
  intro l
  induction l with
  | nil => intro i j; simp [buildScenes]
  | cons ps rest ih =>
      intro i j
      cases j with
      | zero => simp [buildScenes]
      | succ j =>
          have harith : i + 1 + j = i + (j + 1) := by omega
          simp only [buildScenes, List.get?_cons_succ, ih (i + 1) j, harith]

theorem length_buildScenes (ids : Nat → Nat) (img : Nat → Option String) :
    ∀ (l : List ParsedScene) (i : Nat),
      (buildScenes ids img i l).length = l.length := by
  intro l
  induction l with
  | nil => intro i; rfl
  | cons ps rest ih => intro i; simp [buildScenes, ih]

theorem generatedScene_duration (newId : Nat) (ps : ParsedScene) (img : Option String) :
    (generatedScene newId ps img).duration = ps.duration := by
  cases img <;> rfl

theorem foldl_buildScenes_duration (ids : Nat → Nat) (img : Nat → Option String) :
    ∀ (l : List ParsedScene) (i acc : Nat),
      List.foldl (fun acc s => acc + s.duration) acc (buildScenes ids img i l)
        = acc + (l.map ParsedScene.duration).sum := by
  intro l
  induction l with
  | nil => intro i acc; simp [buildScenes]
  | cons ps rest ih =>
      intro i acc
      simp only [buildScenes, List.foldl_cons, ih, generatedScene_duration,
        List.map_cons, List.sum_cons]
      omega

theorem mem_playTimedAux (nar : Nat → Nat) :
    ∀ (l : List Nat) (k j d : Nat), l.get? j = some d →
      (k + j, nar (k + j) + d) ∈ playTimedAux nar k l := by
  intro l
  induction l with
  | nil => intro k j d h; simp at h
  | cons a rest ih =>
      intro k j d h
      cases j with
      | zero =>
          simp only [List.get?_cons_zero, Option.some.injEq] at h
          subst h
          simp [playTimedAux]
      | succ j =>
          have hmem := ih (k + 1) j d (by simpa using h)
          have harith : k + 1 + j = k + (j + 1) := by omega
          rw [harith] at hmem
          exact List.mem_cons_of_mem _ hmem

theorem playRunAux_spec : ∀ (l : List VideoScene) (k : Nat),
    playRunAux k l
      = { visits := List.range' k l.length, playingAfter := false, idxAfter := 0 } := by
  intro l
  induction l with
  | nil => intro k; rfl
  | cons s rest ih =>
      intro k
      simp [playRunAux, ih, List.range'_succ]

/-- Claim C1 is false of the code: in the spec's own scenario with
durations 5, 5, 5 and an 8-second narration on the second scene, the
preview keeps scene index 1 current for 13 seconds (narration time
plus the authored duration), not for the maximum of the two, which
is 8. -/
theorem C1_counterexample :
    playTimed [5, 5, 5] narScenario = [(0, 5), (1, 13), (2, 5)] ∧
    (13 : Nat) ≠ max 5 8 := by
  exact ⟨rfl, by decide⟩

/-- Claim C1 (amended): during preview, a scene with authored duration
d and narration time nar-of-k stays current for their sum — so the
dwell is indeed never shorter than the narration time and never
shorter than the authored duration, but it equals the sum of the two,
not their maximum. -/
theorem C1_amended_dwell_is_sum (durations : List Nat) (nar : Nat → Nat)
    (k d : Nat) (h : durations.get? k = some d) :
    (k, nar k + d) ∈ playTimed durations nar ∧
    d ≤ nar k + d ∧ nar k ≤ nar k + d := by
  refine ⟨?_, Nat.le_add_left _ _, Nat.le_add_right _ _⟩
  have hmem := mem_playTimedAux nar durations 0 k d h
  simpa [playTimed] using hmem

/-- Witness for the amended claim C1 at the spec scenario. -/
theorem C1_amended_witness :
    (1, 13) ∈ playTimed [5, 5, 5] narScenario ∧
    (5 : Nat) ≤ 13 ∧ (8 : Nat) ≤ 13 := by
  exact C1_amended_dwell_is_sum [5, 5, 5] narScenario 1 5 rfl

/-- Claim C2 names a code bug, evaluated here on the failing trace:
start a 3-scene preview, let scene 0 finish and the timer advance to
scene 1, let scene 1's narration finish, then click the toggle to
cancel.  The cancel does silence the utterance and clear isPlaying,
but the current scene index stays at 1 instead of returning to 0, and
the scheduled timeout survives (previewIntervalRef is never assigned,
so the clearInterval at line 232 is dead), so when it fires scene 2
still becomes current with its narration audibly in flight. -/
theorem C2_cancel_bug :
    cancelTrace.playing = false ∧ cancelTrace.speaking = false ∧
    cancelTrace.idx = 1 ∧ cancelTrace.pendingNext = some 2 ∧
    (prevStep cancelTrace PrevEvent.timerFire).idx = 2 ∧
    (prevStep cancelTrace PrevEvent.timerFire).speaking = true := by
  decide

/-- Claim C3 is false as stated: the status transition before render
work begins is not restricted to ready or draft — re-rendering a
completed project transitions complete to rendering, because
handleRenderVideo never inspects the prior status. -/
theorem C3_counterexample :
    projC3.scenes ≠ [] ∧
    projC3.status ≠ ProjStatus.ready ∧
    projC3.status ≠ ProjStatus.draft ∧
    (renderStart projC3).status = ProjStatus.rendering ∧
    handleRenderVideo projC3 (some "blob-new")
      = renderFinish (renderStart projC3) (some "blob-new") := by
  refine ⟨by simp [projC3], by simp [projC3], by simp [projC3], rfl, rfl⟩

/-- Claim C3 (amended): for every render call on a project with a
non-empty scene list, the status is set to rendering before work
begins regardless of the prior status (including complete, when
re-rendering); on success it becomes complete with the artifact
reference stored; on failure it becomes ready with videoUrl unchanged,
so no artifact reference is produced by that attempt. -/
theorem C3_amended_transitions (p : Project) (r : Option String)
    (h : p.scenes ≠ []) :
    handleRenderVideo p r = renderFinish (renderStart p) r ∧
    (renderStart p).status = ProjStatus.rendering ∧
    (∀ url, r = some url →
      (handleRenderVideo p r).status = ProjStatus.complete ∧
      (handleRenderVideo p r).videoUrl = some url) ∧
    (r = none →
      (handleRenderVideo p r).status = ProjStatus.ready ∧
      (handleRenderVideo p r).videoUrl = p.videoUrl) := by
  have hne : p.scenes.isEmpty = false := by
    simp [List.isEmpty_iff, h]
  refine ⟨by simp [handleRenderVideo, hne], rfl, ?_, ?_⟩
  · intro url hr
    subst hr
    simp [handleRenderVideo, hne, renderFinish, renderStart]
  · intro hr
    subst hr
    simp [handleRenderVideo, hne, renderFinish, renderStart]

/-- Witness for the amended claim C3: re-rendering the completed
one-scene project, once succeeding and once failing. -/
theorem C3_amended_witness :
    handleRenderVideo projC3 none = renderFinish (renderStart projC3) none ∧
    (renderStart projC3).status = ProjStatus.rendering ∧
    (handleRenderVideo projC3 none).status = ProjStatus.ready ∧
    (handleRenderVideo projC3 none).videoUrl = projC3.videoUrl := by
  have h := C3_amended_transitions projC3 none (by simp [projC3])
  exact ⟨h.1, h.2.1, (h.2.2.2 rfl).1, (h.2.2.2 rfl).2⟩

/-- Claim C4: an uncancelled preview traversal of a non-empty scene
list of length n makes the scenes current strictly in list order
0, 1, up to n - 1 (the visit list equals List.range n), and the
terminal step clears the playing flag and resets the index to 0.  The
sequencer owns a single current index, so at most one scene is current
at any instant. -/
theorem C4_preview_order (scenes : List VideoScene) (h : scenes ≠ []) :
    (playSceneRun scenes).visits = List.range scenes.length ∧
    (playSceneRun scenes).playingAfter = false ∧
    (playSceneRun scenes).idxAfter = 0 := by
  rw [playSceneRun, playRunAux_spec]
  exact ⟨(List.range_eq_range' scenes.length).symm, rfl, rfl⟩

/-- Witness for claim C4 on a concrete 3-scene list. -/
theorem C4_preview_order_witness :
    (playSceneRun scenesC4).visits = List.range 3 ∧
    (playSceneRun scenesC4).playingAfter = false ∧
    (playSceneRun scenesC4).idxAfter = 0 := by
  exact C4_preview_order scenesC4 (by simp [scenesC4])

/-- Claim C5: rendering a project whose scene list is empty is rejected
synchronously by the guard at line 188, before the status write or any
work: the project is returned completely unchanged, whatever the
render outcome would have been. -/
theorem C5_empty_render_rejected (p : Project) (r : Option String)
    (h : p.scenes = []) : handleRenderVideo p r = p := by
  simp [handleRenderVideo, h]

/-- Witness for claim C5 on a concrete empty project. -/
theorem C5_empty_render_witness : handleRenderVideo projC5 none = projC5 := by
  exact C5_empty_render_rejected projC5 none rfl

/-- Claim C6: when image generation fails for segment i, the catch
branch still creates a scene at position i with an absent image
reference, the full authored text and the full duration; every segment
is processed (the failure aborts nothing), and the project's total
duration equals the sum of all parsed durations, independent of which
image generations failed. -/
theorem C6_image_failure_recovered (p : Project) (parsed : List ParsedScene)
    (ids : Nat → Nat) (img : Nat → Option String) (i : Nat) (ps : ParsedScene)
    (h : parsed.get? i = some ps) (hfail : img i = none) :
    (handleGenerateScenes p parsed ids img).scenes.length = parsed.length ∧
    (handleGenerateScenes p parsed ids img).scenes.get? i
      = some { id := ids i, text := ps.text, imageUrl := none,
               duration := ps.duration, voiceAudio := none } ∧
    totalDuration (handleGenerateScenes p parsed ids img)
      = (parsed.map ParsedScene.duration).sum := by
  refine ⟨?_, ?_, ?_⟩
  · rw [handleGenerateScenes_scenes, length_buildScenes]
  · rw [handleGenerateScenes_scenes, get?_buildScenes]
    simp only [h, hfail, generatedScene, Nat.zero_add]
    rfl
  · rw [totalDuration, handleGenerateScenes_scenes, foldl_buildScenes_duration]
    simp

/-- Witness for claim C6: regenerating a project whose segment 1 image
fails still yields two scenes, the second with no image but its full
text and duration, and the total duration 4 + 6. -/
theorem C6_image_failure_witness :
    (handleGenerateScenes projC6 parsedC6 id imgC6).scenes.length = 2 ∧
    (handleGenerateScenes projC6 parsedC6 id imgC6).scenes.get? 1
      = some { id := 1, text := "world", imageUrl := none,
               duration := 6, voiceAudio := none } ∧
    totalDuration (handleGenerateScenes projC6 parsedC6 id imgC6) = 10 := by
  exact C6_image_failure_recovered projC6 parsedC6 id imgC6 1 ⟨"world", 6⟩ rfl rfl

/-- Claim C7 is false as stated: cancellation is only reachable through
the play/stop toggle, which is not idempotent.  Clicking the toggle
while the sequencer is idle does not leave the state unchanged — it
starts a preview; and after a cancel, a second consecutive click
starts a fresh preview with the playing flag set. -/
theorem C7_counterexample :
    prevStep (initPrev 3) PrevEvent.toggleClick ≠ initPrev 3 ∧
    (prevStep (prevStep (PrevState.mk 3 true 1 none (some 2) false)
        PrevEvent.toggleClick) PrevEvent.toggleClick).playing = true := by
  decide

/-- Claim C7 (amended): the cancel branch of the toggle (taken while
playing, with a non-empty scene list) only clears the playing flag and
silences speech — it leaves the scene index (and everything else,
including the project, which the handler never touches) unchanged and
raises no error; with no scenes the toggle is a no-op in any state;
but the toggle is not an idempotent cancel: invoked while idle with
scenes present it starts a new preview, setting the playing flag and
resetting the index to 0. -/
theorem C7_amended_toggle (s : PrevState) :
    (s.n ≠ 0 → s.playing = true →
      prevStep s PrevEvent.toggleClick = { s with playing := false, speaking := false }) ∧
    (s.n = 0 → prevStep s PrevEvent.toggleClick = s) ∧
    (s.n ≠ 0 → s.playing = false →
      (prevStep s PrevEvent.toggleClick).playing = true ∧
      (prevStep s PrevEvent.toggleClick).idx = 0) := by
  refine ⟨fun h hp => ?_, fun h => ?_, fun h hp => ?_⟩
  · simp [prevStep, h, hp]
  · simp [prevStep, h]
  · simp [prevStep, h, hp, beginScene, Nat.le_zero]

/-- Witness for the amended claim C7 at concrete preview states. -/
theorem C7_amended_witness :
    prevStep (PrevState.mk 3 true 1 none (some 2) false) PrevEvent.toggleClick
      = PrevState.mk 3 false 1 none (some 2) false ∧
    prevStep (PrevState.mk 0 false 4 none none false) PrevEvent.toggleClick
      = PrevState.mk 0 false 4 none none false ∧
    (prevStep (PrevState.mk 2 false 0 none none false) PrevEvent.toggleClick).playing = true ∧
    (prevStep (PrevState.mk 2 false 0 none none false) PrevEvent.toggleClick).idx = 0 := by
  refine ⟨?_, ?_, ?_, ?_⟩
  · exact (C7_amended_toggle _).1 (by decide) rfl
  · exact (C7_amended_toggle _).2.1 rfl
  · exact ((C7_amended_toggle _).2.2 (by decide) rfl).1
  · exact ((C7_amended_toggle _).2.2 (by decide) rfl).2

/-- Claim C8 is false as stated: typing 100 into the duration input of
the scene with id 7 stores duration 100, which is outside the interval
from 2 to 15 — the onChange handler stores the entered number without
clamping, and the min and max attributes do not restrict typed
values. -/
theorem C8_counterexample :
    (durationInputChange projC8 7 100).scenes
      = [⟨7, "some text", none, 100, none⟩] ∧
    ¬(100 ≤ 15) := by
  exact ⟨rfl, by decide⟩

/-- Claim C8 (amended): the editing boundary declares the bounds 2 and
15 on the duration input and the Add Scene button creates scenes with
duration 5, which lies within them, but an entered duration is stored
exactly as typed, with no clamping, so stored durations can leave the
interval. -/
theorem C8_amended_no_clamp (p : Project) (sceneId entered newId : Nat) :
    (durationInputChange p sceneId entered).scenes
      = p.scenes.map (fun s => if s.id = sceneId then { s with duration := entered } else s) ∧
    (addSceneButton p newId).scenes = p.scenes ++ [defaultNewScene newId] ∧
    2 ≤ (defaultNewScene newId).duration ∧ (defaultNewScene newId).duration ≤ 15 := by
  exact ⟨rfl, rfl, by simp [defaultNewScene], by simp [defaultNewScene]⟩

/-- Claim C9: downloading a project that holds a rendered artifact uses
the project title followed by the .webm container extension as the
suggested filename, and falls back to the name video.webm exactly when
the title is the empty string. -/
theorem C9_download_filename (p : Project) (url : String)
    (h : p.videoUrl = some url) :
    (p.title ≠ "" → downloadFilename p = some (p.title ++ ".webm")) ∧
    (p.title = "" → downloadFilename p = some "video.webm") := by
  constructor
  · intro ht
    simp [downloadFilename, h, ht]
  · intro ht
    simp [downloadFilename, h, ht]

/-- Witness for claim C9 on rendered projects with a non-empty and an
empty title. -/
theorem C9_download_filename_witness :
    downloadFilename projC9 = some "My Movie.webm" ∧
    downloadFilename projC9b = some "video.webm" := by
  refine ⟨?_, ?_⟩
  · exact (C9_download_filename projC9 "blob-a" rfl).1 (by simp [projC9])
  · exact (C9_download_filename projC9b "blob-b" rfl).2 rfl

/-- Claim C10: regenerating scenes first clears the project's scene
list and then appends exactly one scene per parsed segment in parse
order, so afterwards the scene count equals the segment count, each
position holds the scene generated from its segment (with that
segment's text and duration, whatever the image outcome), and the
result never depends on the previously held scenes. -/
theorem C10_regenerate_replaces (p : Project) (parsed : List ParsedScene)
    (ids : Nat → Nat) (img : Nat → Option String) :
    (handleGenerateScenes p parsed ids img).scenes.length = parsed.length ∧
    (∀ i ps, parsed.get? i = some ps →
      (handleGenerateScenes p parsed ids img).scenes.get? i
        = some (generatedScene (ids i) ps (img i))) ∧
    (∀ nid ps o, (generatedScene nid ps o).text = ps.text ∧
      (generatedScene nid ps o).duration = ps.duration) ∧
    (∀ prior, handleGenerateScenes { p with scenes := prior } parsed ids img
        = handleGenerateScenes p parsed ids img) := by
  refine ⟨?_, ?_, ?_, ?_⟩
  · rw [handleGenerateScenes_scenes, length_buildScenes]
  · intro i ps h
    rw [handleGenerateScenes_scenes, get?_buildScenes]
    simp only [h, Nat.zero_add]
    rfl
  · intro nid ps o
    cases o <;> exact ⟨rfl, rfl⟩
  · intro prior
    rfl

/-- Witness for claim C10: regenerating a project that held two manual
scenes from two parsed segments, the first image failing, yields
exactly the two generated scenes and ignores the prior list. -/
theorem C10_regenerate_witness :
    (handleGenerateScenes projC10 parsedC10 id imgC10).scenes.length = 2 ∧
    (handleGenerateScenes projC10 parsedC10 id imgC10).scenes.get? 0
      = some (generatedScene 0 ⟨"first", 3⟩ none) ∧
    (generatedScene 0 ⟨"first", 3⟩ none).text = "first" ∧
    (generatedScene 0 ⟨"first", 3⟩ none).duration = 3 ∧
    handleGenerateScenes { projC10 with scenes := [] } parsedC10 id imgC10
      = handleGenerateScenes projC10 parsedC10 id imgC10 := by
  have h := C10_regenerate_replaces projC10 parsedC10 id imgC10
  refine ⟨h.1, ?_, (h.2.2.1 0 ⟨"first", 3⟩ none).1,
    (h.2.2.1 0 ⟨"first", 3⟩ none).2, h.2.2.2 []⟩
  have h0 := h.2.1 0 ⟨"first", 3⟩ rfl
  simpa [imgC10] using h0
